import Mathlib

/-!
Verification of the Rcpp attributes compilation unit (src/Attributes.cpp).

The development shallowly embeds the code of `Attributes.cpp`:
the filesystem is an explicit association list from paths to file data
(content and modification time), matching the operations the code performs
through `FileInfo`, `std::ifstream`/`std::ofstream` and the R callbacks
`file.remove`, `file.copy` and `dir.create` (directory creation carries no
observable state in this model: no claim depends on directories).
Errors (`Rcpp::file_not_found`, `Rcpp::file_io_error`, `Rcpp::file_exists`)
become an `Except` error type.  The external attribute parser
(`AttributesParser.h`, not part of this translation unit) is passed in as a
function argument, and the R RNG draw of `sample(100000, 1)`, the `tempfile`
result and the clock are injected parameters.
-/

/-- Error taxonomy of the code: `file_not_found` (SourceNotFound),
`file_io_error` (FileIOError), `file_exists` (UnsafeOverwriteError). -/
inductive Err where
  | fileNotFound : String → Err
  | fileIOError : String → Err
  | fileExists : String → Err
deriving DecidableEq

/-- A file on disk: its content and its mtime (`st_mtime`). -/
structure FileData where
  content : String
  mtime : Nat
deriving DecidableEq

/-- The filesystem: an association list from paths to file data.  Earlier
entries shadow later ones; `write` keeps the list canonical. -/
structure FS where
  files : List (String × FileData)
deriving DecidableEq

/-- Look up a path (first matching entry). -/
def FS.read (fs : FS) (p : String) : Option FileData :=
  (fs.files.find? (fun e => e.1 == p)).map (fun e => e.2)

/-- `FileInfo::exists()`: whether a stat succeeds. -/
def FS.existsFile (fs : FS) (p : String) : Bool :=
  (fs.read p).isSome

/-- `FileInfo::lastModified()`: the mtime, `0` when the stat fails with
ENOENT (the `FileInfo` constructor initializes `lastModified_(0)`). -/
def FS.mtimeOf (fs : FS) (p : String) : Nat :=
  ((fs.read p).map (fun d => d.mtime)).getD 0

/-- Content of a file, when present. -/
def FS.contentAt (fs : FS) (p : String) : Option String :=
  (fs.read p).map (fun d => d.content)

/-- Write (create or truncate) a file. -/
def FS.write (fs : FS) (p : String) (d : FileData) : FS :=
  ⟨(p, d) :: fs.files.filter (fun e => e.1 != p)⟩

/-- `removeFile`: removing a non-existent file is a no-op (the code guards
with `FileInfo(path).exists()`; on the list model the filter is the same). -/
def FS.removeFile (fs : FS) (p : String) : FS :=
  ⟨fs.files.filter (fun e => e.1 != p)⟩

theorem FS.read_write_self (fs : FS) (p : String) (d : FileData) :
    (fs.write p d).read p = some d := by
  simp [FS.write, FS.read, List.find?]

theorem find?_filter_ne (l : List (String × FileData)) (p q : String) (h : q ≠ p) :
    (l.filter (fun e => e.1 != p)).find? (fun e => e.1 == q) =
      l.find? (fun e => e.1 == q) := by
  induction l with
  | nil => rfl
  | cons e es ih =>
    by_cases hp : e.1 = p
    · have h1 : (e.1 != p) = false := by simp [hp]
      have h2 : (e.1 == q) = false := by simp [hp, Ne.symm h]
      simp [List.filter, List.find?, h1, h2, ih]
    · have h1 : (e.1 != p) = true := by simp [hp]
      by_cases hq : e.1 = q
      · have h2 : (e.1 == q) = true := by simp [hq]
        simp [List.filter, List.find?, h1, h2]
      · have h2 : (e.1 == q) = false := by simp [hq]
        simp [List.filter, List.find?, h1, h2, ih]

theorem FS.read_write_ne (fs : FS) (p q : String) (d : FileData) (h : q ≠ p) :
    (fs.write p d).read q = fs.read q := by
  have h2 : (p == q) = false := by simp [Ne.symm h]
  simp [FS.write, FS.read, List.find?, h2, find?_filter_ne fs.files p q h]

theorem FS.read_remove_self (fs : FS) (p : String) :
    (fs.removeFile p).read p = none := by
  simp only [FS.removeFile, FS.read]
  rw [show ((fs.files.filter (fun e => e.1 != p)).find? (fun e => e.1 == p)) = none from ?_]
  · rfl
  · rw [List.find?_eq_none]
    intro e he
    have := List.of_mem_filter he
    simp at this ⊢
    exact this

theorem FS.read_remove_ne (fs : FS) (p q : String) (h : q ≠ p) :
    (fs.removeFile p).read q = fs.read q := by
  simp [FS.removeFile, FS.read, find?_filter_ne fs.files p q h]

/-! ## Substring containment (`std::string::find != npos`) -/

/-- Whether `needle` occurs at the head of `hay` (character lists). -/
def startsWithL : List Char → List Char → Bool
  | [], _ => true
  | _ :: _, [] => false
  | a :: as, b :: bs => a == b && startsWithL as bs

/-- Whether `needle` occurs anywhere in `hay`; the semantics of
`hay.find(needle) != std::string::npos`. -/
def containsL (needle : List Char) : List Char → Bool
  | [] => startsWithL needle []
  | c :: rest => startsWithL needle (c :: rest) || containsL needle rest

/-- `hay.find(needle) != npos` on strings. -/
def strContains (hay needle : String) : Bool :=
  containsL needle.data hay.data

theorem startsWithL_append_self (n suf : List Char) :
    startsWithL n (n ++ suf) = true := by
  induction n with
  | nil => rfl
  | cons c cs ih => simp [startsWithL, ih]

theorem containsL_append_of_startsWith (n : List Char) :
    ∀ pre tail, startsWithL n tail = true → containsL n (pre ++ tail) = true := by
  intro pre
  induction pre with
  | nil =>
    intro tail h
    cases tail with
    | nil => simpa [containsL] using h
    | cons c r => simp [containsL, h]
  | cons c cs ih =>
    intro tail h
    simp only [List.cons_append, containsL]
    have := ih tail h
    simp only [List.append_eq] at this ⊢
    rw [this]
    simp

theorem containsL_append_self (n pre suf : List Char) :
    containsL n (pre ++ n ++ suf) = true := by
  rw [List.append_assoc]
  exact containsL_append_of_startsWith n pre (n ++ suf) (startsWithL_append_self n suf)

theorem strContains_of_split (x y needle : String) :
    strContains (x ++ needle ++ y) needle = true := by
  simp only [strContains, String.data_append]
  exact containsL_append_self needle.data x.data y.data

/-! ## Attribute model (external parser output, consumed as input) -/

/-- One function argument: `Argument` of the parser (name and type). -/
structure Argument where
  name : String
  type : String
deriving DecidableEq

/-- A parsed function signature: `Function` of the parser. -/
structure Fn where
  name : String
  type : String
  arguments : List Argument
deriving DecidableEq

/-- Renamed copy of a function signature.
Modelled from the spec: `Function::renamedTo` lives in the external parser
(`AttributesParser.h`, not in this translation unit); the spec describes it as
producing a copy with the same signature under a different external name. -/
def Fn.renamedTo (f : Fn) (newName : String) : Fn :=
  { f with name := newName }

/-- One name/value attribute parameter. -/
structure Param where
  name : String
  value : String
deriving DecidableEq

/-- A parsed attribute: name, optional function signature, ordered params,
documentation lines.  `function` is `none` exactly when the C++
`Attribute::function().empty()` holds (the spec calls the signature
"optional ... empty if attribute is not function-level"). -/
structure Attribute where
  name : String
  function : Option Fn
  params : List Param
  roxygen : List String
deriving DecidableEq

/-- The parsed attributes of one source file.
Modelled from the spec where the parser is external: `hasInterface(kInterfaceCpp)`
and `hasInterface(kInterfaceR)` are "a declared interface-tag set (e.g. {native,
host}) aggregated from attributes with an interface designation", exposed here
as the two booleans; `prototypes()` is "a derived set of forward-declaration
prototypes"; `empty()` is emptiness of the attribute sequence. -/
structure SourceFileAttributes where
  sourceFile : String
  attributes : List Attribute
  prototypes : List String
  interfaceCpp : Bool
  interfaceR : Bool
deriving DecidableEq

/-- `kExportAttribute` of the parser.
Modelled from the spec: the constant lives in `AttributesParser.h`; only its
identity matters (attributes with this name mark exports). -/
def kExportAttribute : String := "export"

/-- `kDependsAttribute` of the parser.
Modelled from the spec: a "depends" attribute whose parameter list names
dependencies. -/
def kDependsAttribute : String := "depends"

/-- `isExportedFunction`: the attribute's name is the export kind and it
carries a non-empty function signature. -/
def isExportedFunction (a : Attribute) : Bool :=
  a.name == kExportAttribute && a.function.isSome

/-- `exportedName`: the first parameter's name when params is non-empty,
else the function's own name (`function().name()`; an absent signature reads
as the default-constructed function whose name is the empty string). -/
def exportedName (a : Attribute) : String :=
  match a.params with
  | p :: _ => p.name
  | [] => ((a.function.map Fn.name).getD "")

/-! ## ExportsGenerator base contract -/

/-- The provenance UUID written into every generated file
(`ExportsGenerator::generatorToken`). -/
def generatorToken : String := "10BE3573-1514-4C36-9D1C-5A225CD40393"

/-- State of one generator after construction: target path, comment syntax,
and the existing target content read once at construction. -/
structure ExportsGenerator where
  targetFile : String
  commentPfx : String
  existingCode : String
deriving DecidableEq

/-- `ExportsGenerator::isSafeToOverwrite`: the existing content is empty or
contains the generator token. -/
def isSafeToOverwrite (existingCode : String) : Bool :=
  existingCode == "" || strContains existingCode generatorToken

/-- The `ExportsGenerator` constructor: read the existing target file if it
exists, then throw `Rcpp::file_exists` when it is not safe to overwrite. -/
def ExportsGenerator.construct (fs : FS) (targetFile commentPfx : String) :
    Except Err ExportsGenerator :=
  let existingCode := (fs.contentAt targetFile).getD ""
  if isSafeToOverwrite existingCode then
    .ok ⟨targetFile, commentPfx, existingCode⟩
  else
    .error (.fileExists targetFile)

/-- The header the base commit writes before the accumulated body: the fixed
preamble naming the tool, the generator token line, a blank line, then the
caller-supplied preamble when non-empty. -/
def headerOf (commentPfx preamble : String) : String :=
  commentPfx ++ " This file was generated by Rcpp::compileAttributes\n" ++
  commentPfx ++ " Generator token: " ++ generatorToken ++ "\n\n" ++
  (if preamble == "" then "" else preamble)

/-- Header plus accumulated body: the full content a commit would write. -/
def assembledOf (commentPfx preamble code : String) : String :=
  headerOf commentPfx preamble ++ code

/-- `ExportsGenerator::commit(preamble)`: no-op returning false when the
accumulated code is empty and the target does not currently exist; otherwise
write header+code only when it differs from the content read at construction,
returning whether a write occurred. -/
def commitBase (g : ExportsGenerator) (code preamble : String) (fs : FS)
    (now : Nat) : FS × Bool :=
  if code == "" && !(fs.existsFile g.targetFile) then
    (fs, false)
  else if assembledOf g.commentPfx preamble code != g.existingCode then
    (fs.write g.targetFile ⟨assembledOf g.commentPfx preamble code, now⟩, true)
  else
    (fs, false)

theorem generatorToken_in_assembled (commentPfx preamble code : String) :
    strContains (assembledOf commentPfx preamble code) generatorToken = true := by
  have h : assembledOf commentPfx preamble code =
      (commentPfx ++ " This file was generated by Rcpp::compileAttributes\n" ++
       commentPfx ++ " Generator token: ") ++ generatorToken ++
      ("\n\n" ++ (if preamble == "" then "" else preamble) ++ code) := by
    simp only [assembledOf, headerOf]
    simp [String.append_assoc]
  rw [h]
  exact strContains_of_split _ _ _

theorem assembled_ne_empty (commentPfx preamble code : String) :
    assembledOf commentPfx preamble code ≠ "" := by
  intro h
  have h2 := generatorToken_in_assembled commentPfx preamble code
  rw [h] at h2
  simp [strContains, containsL, startsWithL, generatorToken] at h2

/-! ## Concrete generators -/

/-- Join a list of strings with a separator, as the C++ loops that emit
`sep` between consecutive items do. -/
def sepBy (sep : String) : List String → String
  | [] => ""
  | x :: rest => rest.foldl (fun acc y => acc ++ sep ++ y) x

/-- `generateCppModuleFunctions`: one `Rcpp::function` registration line per
exported-function attribute. -/
def generateCppModuleFunctions (attrs : List Attribute) : String :=
  attrs.foldl
    (fun acc a =>
      if isExportedFunction a then
        acc ++ "    Rcpp::function(\"" ++ exportedName a ++ "\", &" ++
          ((a.function.map Fn.name).getD "") ++ ");\n"
      else acc)
    ""

/-- `generateCppModule`: a full `RCPP_MODULE` block around the function
registrations. -/
def generateCppModule (moduleName : String) (attrs : List Attribute) : String :=
  "RCPP_MODULE(" ++ moduleName ++ ") \x7b\n" ++
  generateCppModuleFunctions attrs ++
  "\x7d\n"

/-- `generateRoxygenPlaceholder`: an empty host-language function definition
under the exported name, listing the argument names. -/
def generateRoxygenPlaceholder (a : Attribute) : String :=
  exportedName a ++ "<- function(" ++
  sepBy ", " (((a.function.map Fn.arguments).getD []).map Argument.name) ++
  ") \x7b\x7d\n"

/-- `generateRoxygen`: for each exported function with documentation lines,
a blank line, the lines, the placeholder, and a closing blank line. -/
def generateRoxygen (attrs : List Attribute) : String :=
  attrs.foldl
    (fun acc a =>
      if isExportedFunction a && !a.roxygen.isEmpty then
        acc ++ "\n" ++ (a.roxygen.foldl (fun s l => s ++ l ++ "\n") "") ++
          generateRoxygenPlaceholder a ++ "\n"
      else acc)
    ""

/-- Rendering of a function signature by `operator<<`.
Modelled from the spec: the stream output of `Function` is defined by the
external parser; the spec describes the forwarding stub as "a function with
the same signature under the exported name", so the rendering lists return
type, name and the typed argument list. -/
def fmtFn (f : Fn) : String :=
  f.type ++ " " ++ f.name ++ "(" ++
  sepBy ", " (f.arguments.map (fun a => a.type ++ " " ++ a.name)) ++ ")"

/-- One inline forwarding stub of `CppIncludeGenerator::writeFunctions`. -/
def cppIncludeStub (f : Fn) : String :=
  "    inline " ++ fmtFn f ++ " \x7b\n" ++
  "        static " ++ f.type ++ "(*p_" ++ f.name ++ ")(" ++
    sepBy "," (f.arguments.map Argument.type) ++
    ") = Rcpp::GetCppCallable(\"RcppExports\", \"" ++ f.name ++ "\");\n" ++
  "        return p_" ++ f.name ++ "(" ++
    sepBy "," (f.arguments.map Argument.name) ++ ");\n" ++
  "    \x7d\n"

/-- Whether a name begins with the hidden marker:
`name.find_first_of(.) == 0`. -/
def startsWithDot (s : String) : Bool :=
  match s.data with
  | c :: _ => c == '.'
  | [] => false

/-- Body fragment `CppIncludeGenerator::writeFunctions` appends for one
file's attributes (the caller has already checked the C++ interface tag). -/
def cppIncludeFunctions (attrs : List Attribute) : String :=
  attrs.foldl
    (fun acc a =>
      if isExportedFunction a then
        let f := (((a.function).getD ⟨"", "", []⟩).renamedTo (exportedName a))
        if startsWithDot f.name then acc else acc ++ cppIncludeStub f
      else acc)
    ""

/-- The 41-space continuation indent of `RExportsGenerator::writeEnd`. -/
def rExportsIndent : String := "                                         "

/-- The final `Rcpp::loadModule` call of `RExportsGenerator::writeEnd`: an
empty export list renders as `what = character())` (no trailing newline), a
populated one as a `what = c(...)` vector. -/
def loadModuleText (rExports : List String) : String :=
  "Rcpp::loadModule(\"RcppExports\", " ++
  (match rExports with
   | [] => "what = character())"
   | n :: rest =>
     "what = c(" ++ "\"" ++ n ++ "\"" ++
     rest.foldl (fun acc m => acc ++ ",\n" ++ rExportsIndent ++ "\"" ++ m ++ "\"") "" ++
     "))\n")

/-- Preamble built by `CppExportsGenerator::commit` from the include lines
and the collected forward-declaration prototypes. -/
def cppExportsPreamble (includes prototypes : List String) : String :=
  (if includes.isEmpty then ""
   else (includes.foldl (fun acc i => acc ++ i ++ "\n") "") ++ "\n") ++
  (if prototypes.isEmpty then ""
   else (prototypes.foldl (fun acc p => acc ++ p ++ ";\n") "") ++ "\n")

/-- Preamble built by `CppIncludeGenerator::commit` from the include lines. -/
def cppIncludePreamble (includes : List String) : String :=
  if includes.isEmpty then ""
  else (includes.foldl (fun acc i => acc ++ i ++ "\n") "") ++ "\n"

/-- `CppExportsGenerator::commit`: base commit with the includes/prototypes
preamble. -/
def CppExportsGenerator.commit (g : ExportsGenerator) (code : String)
    (includes prototypes : List String) (fs : FS) (now : Nat) : FS × Bool :=
  commitBase g code (cppExportsPreamble includes prototypes) fs now

/-- `RExportsGenerator::commit`: base commit with no preamble; the includes
and prototypes arguments are ignored. -/
def RExportsGenerator.commit (g : ExportsGenerator) (code : String)
    (includes prototypes : List String) (fs : FS) (now : Nat) : FS × Bool :=
  commitBase g code "" fs now

/-- `CppIncludeGenerator::commit`: with a C++ interface in the batch, base
commit with the includes preamble (directory creation has no observable
effect in this model); without one, remove the target file and report
false. -/
def CppIncludeGenerator.commit (g : ExportsGenerator) (code : String)
    (hasCppInterface : Bool) (includes prototypes : List String) (fs : FS)
    (now : Nat) : FS × Bool :=
  if hasCppInterface then
    commitBase g code (cppIncludePreamble includes) fs now
  else
    (fs.removeFile g.targetFile, false)

/-- Target path of `CppExportsGenerator`: `<dir><sep>src<sep>RcppExports.cpp`. -/
def cppExportsPath (packageDir fileSep : String) : String :=
  packageDir ++ fileSep ++ "src" ++ fileSep ++ "RcppExports.cpp"

/-- Target path of `RExportsGenerator`: `<dir><sep>R<sep>RcppExports.R`. -/
def rExportsPath (packageDir fileSep : String) : String :=
  packageDir ++ fileSep ++ "R" ++ fileSep ++ "RcppExports.R"

/-- Target path of `CppIncludeGenerator`:
`<dir><sep>inst<sep>include<sep><scope>.hpp`. -/
def cppIncludePath (packageDir fileSep scope : String) : String :=
  packageDir ++ fileSep ++ "inst" ++ fileSep ++ "include" ++ fileSep ++
  scope ++ ".hpp"

/-! ## Orchestration: compileAttributes -/

/-- The accumulated state of the three generators across the write phases:
the three code buffers, the running R export-name list, whether any file in
the batch declared a C++ interface, and the collected prototypes. -/
structure Phases where
  bufCpp : String
  bufR : String
  rExports : List String
  bufInc : String
  hasCppInterface : Bool
  prototypes : List String
deriving DecidableEq

/-- One loop iteration of `compileAttributes`: skip a file with no
attributes, otherwise collect its prototypes and fan `writeFunctions` out to
the three generators. -/
def phasesStep (ph : Phases) (a : SourceFileAttributes) : Phases :=
  if a.attributes.isEmpty then ph
  else
    { bufCpp := ph.bufCpp ++ generateCppModuleFunctions a.attributes,
      bufR :=
        if a.interfaceR then ph.bufR ++ generateRoxygen a.attributes
        else ph.bufR,
      rExports :=
        if a.interfaceR then
          ph.rExports ++ (a.attributes.filter isExportedFunction).map exportedName
        else ph.rExports,
      bufInc :=
        if a.interfaceCpp then ph.bufInc ++ cppIncludeFunctions a.attributes
        else ph.bufInc,
      hasCppInterface := ph.hasCppInterface || a.interfaceCpp,
      prototypes := ph.prototypes ++ a.prototypes }

/-- The full three-phase emission over the batch: `writeBegin` boilerplate,
the per-file loop, and `writeEnd` trailers.  Depends only on the arguments
and the parsed attributes, never on the filesystem. -/
def runPhases (scope : String) (cppFiles : List String)
    (attrsOf : String → SourceFileAttributes) : Phases :=
  let init : Phases :=
    { bufCpp := "RCPP_MODULE(RcppExports) \x7b\n",
      bufR := "",
      rExports := [],
      bufInc := "namespace " ++ scope ++ " \x7b\n",
      hasCppInterface := false,
      prototypes := [] }
  let mid := cppFiles.foldl (fun ph f => phasesStep ph (attrsOf f)) init
  { mid with
      bufCpp := mid.bufCpp ++ "\x7d\n",
      bufR := mid.bufR ++ loadModuleText mid.rExports,
      bufInc := mid.bufInc ++ "\x7d\n" }

/-- `compileAttributes`: construct the three generators over the package
directory, run the write phases, and commit each generator in registration
order, aggregating "did any generator write" by logical OR.  `attrsOf` is
the external parser; `verbose` only echoes progress and is omitted. -/
def compileAttributes (packageDir packageName : String)
    (cppFiles : List String) (includes : List String) (fileSep : String)
    (attrsOf : String → SourceFileAttributes) (fs : FS) (now : Nat) :
    Except Err (FS × Bool) := do
  let gCpp ← ExportsGenerator.construct fs (cppExportsPath packageDir fileSep) "//"
  let gR ← ExportsGenerator.construct fs (rExportsPath packageDir fileSep) "#"
  let gInc ← ExportsGenerator.construct fs
    (cppIncludePath packageDir fileSep packageName) "//"
  let ph := runPhases packageName cppFiles attrsOf
  let (fs1, w1) := CppExportsGenerator.commit gCpp ph.bufCpp includes ph.prototypes fs now
  let (fs2, w2) := RExportsGenerator.commit gR ph.bufR includes ph.prototypes fs1 now
  let (fs3, w3) := CppIncludeGenerator.commit gInc ph.bufInc ph.hasCppInterface
    includes ph.prototypes fs2 now
  .ok (fs3, w1 || w2 || w3)

theorem str_append_cancel_left (a b c : String) (h : a ++ b = a ++ c) : b = c := by
  have hd := congrArg String.data h
  simp only [String.data_append] at hd
  exact String.ext (List.append_cancel_left hd)

theorem cppExportsPath_ne_rExportsPath (packageDir fileSep : String) :
    cppExportsPath packageDir fileSep ≠ rExportsPath packageDir fileSep := by
  intro h
  simp only [cppExportsPath, rExportsPath, String.append_assoc] at h
  have h2 := str_append_cancel_left _ _ _ h
  have hd := congrArg String.data h2
  simp only [String.data_append] at hd
  have h3 := List.append_cancel_left hd
  simp only [List.cons_append, List.nil_append] at h3
  injection h3 with h4 _
  exact absurd h4 (by decide)

theorem cppExportsPath_ne_cppIncludePath (packageDir fileSep scope : String) :
    cppExportsPath packageDir fileSep ≠ cppIncludePath packageDir fileSep scope := by
  intro h
  simp only [cppExportsPath, cppIncludePath, String.append_assoc] at h
  have h2 := str_append_cancel_left _ _ _ h
  have hd := congrArg String.data h2
  simp only [String.data_append] at hd
  have h3 := List.append_cancel_left hd
  simp only [List.cons_append, List.nil_append] at h3
  injection h3 with h4 _
  exact absurd h4 (by decide)

theorem rExportsPath_ne_cppIncludePath (packageDir fileSep scope : String) :
    rExportsPath packageDir fileSep ≠ cppIncludePath packageDir fileSep scope := by
  intro h
  simp only [rExportsPath, cppIncludePath, String.append_assoc] at h
  have h2 := str_append_cancel_left _ _ _ h
  have hd := congrArg String.data h2
  simp only [String.data_append] at hd
  have h3 := List.append_cancel_left hd
  simp only [List.cons_append, List.nil_append] at h3
  injection h3 with h4 _
  exact absurd h4 (by decide)

/-! ## SourceCppDynlib: the ad hoc build unit -/

/-- The platform list handed in from R: `file.sep` and `dynlib.ext`. -/
structure Platform where
  fileSep : String
  dynlibExt : String
deriving DecidableEq

/-- The R `basename` callback: the final `/`-separated path component
(collect characters, restarting after each separator). -/
def basename (p : String) : String :=
  String.mk (p.data.foldl (fun acc c => if c == '/' then [] else acc ++ [c]) [])

/-- `SourceCppDynlib`: one ad hoc build unit.  A default-constructed unit
(the empty sentinel the cache returns on a miss) has every field empty. -/
structure SourceCppDynlib where
  cppSourcePath : String
  cppSourceLastModified : Nat
  generatedCpp : String
  cppSourceFilename : String
  moduleName : String
  buildDirectory : String
  fileSep : String
  dynlibExt : String
  exportedFunctions : List String
  depends : List String
deriving DecidableEq

/-- The default-constructed sentinel `SourceCppDynlib()`. -/
def SourceCppDynlib.empty : SourceCppDynlib :=
  ⟨"", 0, "", "", "", "", "", "", [], []⟩

/-- `isEmpty()`: the source path is empty. -/
def SourceCppDynlib.isEmpty (d : SourceCppDynlib) : Bool :=
  d.cppSourcePath == ""

/-- `generatedCppSourcePath()`: the copy of the source inside the build
directory. -/
def SourceCppDynlib.generatedCppSourcePath (d : SourceCppDynlib) : String :=
  d.buildDirectory ++ d.fileSep ++ d.cppSourceFilename

/-- `dynlibFilename()`: module name plus the platform dynlib extension. -/
def SourceCppDynlib.dynlibFilename (d : SourceCppDynlib) : String :=
  d.moduleName ++ d.dynlibExt

/-- `dynlibPath()`: expected path of the compiled artifact. -/
def SourceCppDynlib.dynlibPath (d : SourceCppDynlib) : String :=
  d.buildDirectory ++ d.fileSep ++ d.dynlibFilename

/-- `isBuilt()`: the compiled artifact exists (independent of staleness). -/
def SourceCppDynlib.isBuilt (d : SourceCppDynlib) (fs : FS) : Bool :=
  fs.existsFile d.dynlibPath

/-- `isSourceDirty()`: the original source's mtime is strictly newer than the
generated copy's mtime, or the compiled artifact does not exist. -/
def SourceCppDynlib.isSourceDirty (d : SourceCppDynlib) (fs : FS) : Bool :=
  decide (fs.mtimeOf d.cppSourcePath > fs.mtimeOf d.generatedCppSourcePath) ||
  !(fs.existsFile d.dynlibPath)

/-- `regenerateSource()`: copy the source into the build directory
(`file.copy` stamps the copy with the current time `now`), parse the
original source, generate the `RCPP_MODULE` block, append it to the copy
after a newline, and record exported function names and dependency names.
The parser `parse` is external and is keyed by the source path. -/
def SourceCppDynlib.regenerateSource (d : SourceCppDynlib)
    (parse : String → SourceFileAttributes) (fs : FS) (now : Nat) :
    SourceCppDynlib × FS :=
  let srcContent := (fs.contentAt d.cppSourcePath).getD ""
  let attrs := parse d.cppSourcePath
  let generated := generateCppModule d.moduleName attrs.attributes
  let fs2 := fs.write d.generatedCppSourcePath
    ⟨srcContent ++ "\n" ++ generated, now⟩
  let d2 :=
    { d with
        generatedCpp := generated,
        exportedFunctions :=
          (attrs.attributes.filter
            (fun a => a.name == kExportAttribute && a.function.isSome)).map
            exportedName,
        depends :=
          (attrs.attributes.filter
            (fun a => a.name == kDependsAttribute)).foldl
            (fun acc a => acc ++ a.params.map Param.name) [] }
  (d2, fs2)

/-- The `SourceCppDynlib(cppSourcePath, platform)` constructor: fail with
`file_not_found` when the source does not exist; otherwise record the source
mtime and basename, take a fresh temp build directory (`tempfile`, injected
as `tmpDir`), draw a random module-name suffix (`sample(100000, 1)`,
injected as `rand`), and run an initial `regenerateSource`. -/
def SourceCppDynlib.make (cppSourcePath : String) (platform : Platform)
    (parse : String → SourceFileAttributes) (tmpDir : String) (rand : Nat)
    (fs : FS) (now : Nat) : Except Err (SourceCppDynlib × FS) :=
  match fs.read cppSourcePath with
  | none => .error (.fileNotFound cppSourcePath)
  | some info =>
    let d : SourceCppDynlib :=
      { cppSourcePath := cppSourcePath,
        cppSourceLastModified := info.mtime,
        generatedCpp := "",
        cppSourceFilename := basename cppSourcePath,
        moduleName := "sourceCpp_" ++ Nat.repr rand,
        buildDirectory := tmpDir,
        fileSep := platform.fileSep,
        dynlibExt := platform.dynlibExt,
        exportedFunctions := [],
        depends := [] }
    .ok (d.regenerateSource parse fs now)

/-! ## SourceCppDynlibCache -/

/-- One cache entry: exactly one of `file`/`code` is the key (the other
stays the default empty string, as in the C++ `Entry`). -/
structure CacheEntry where
  file : String
  code : String
  dynlib : SourceCppDynlib
deriving DecidableEq

/-- The process-wide cache: append-only, first match wins. -/
abbrev Cache := List CacheEntry

/-- `insertFile`: `push_back` of an entry keyed by file path. -/
def Cache.insertFile (c : Cache) (file : String) (d : SourceCppDynlib) : Cache :=
  List.append c [⟨file, "", d⟩]

/-- `insertCode`: `push_back` of an entry keyed by code text. -/
def Cache.insertCode (c : Cache) (code : String) (d : SourceCppDynlib) : Cache :=
  List.append c [⟨"", code, d⟩]

/-- `lookupByFile`: first entry whose file key matches, else the empty
sentinel. -/
def Cache.lookupByFile (c : Cache) (file : String) : SourceCppDynlib :=
  ((List.find? (fun e => e.file == file) c).map CacheEntry.dynlib).getD
    SourceCppDynlib.empty

/-- `lookupByCode`: first entry whose code key matches, else the empty
sentinel. -/
def Cache.lookupByCode (c : Cache) (code : String) : SourceCppDynlib :=
  ((List.find? (fun e => e.code == code) c).map CacheEntry.dynlib).getD
    SourceCppDynlib.empty

/-! ## sourceCppContext entry point -/

/-- The list returned to R by `sourceCppContext`. -/
structure BuildContext where
  moduleName : String
  cppSourcePath : String
  buildRequired : Bool
  buildDirectory : String
  generatedCpp : String
  exportedFunctions : List String
  cppSourceFilename : String
  dynlibFilename : String
  dynlibPath : String
  depends : List String
deriving DecidableEq

/-- Assemble the returned context list from a unit and the build flag. -/
def mkBuildContext (d : SourceCppDynlib) (buildRequired : Bool) : BuildContext :=
  { moduleName := d.moduleName,
    cppSourcePath := d.cppSourcePath,
    buildRequired := buildRequired,
    buildDirectory := d.buildDirectory,
    generatedCpp := d.generatedCpp,
    exportedFunctions := d.exportedFunctions,
    cppSourceFilename := d.cppSourceFilename,
    dynlibFilename := d.dynlibFilename,
    dynlibPath := d.dynlibPath,
    depends := d.depends }

/-- The mutable process state behind `sourceCppContext`: the filesystem and
the static `s_dynlibCache`. -/
structure SysState where
  fs : FS
  cache : Cache
deriving DecidableEq

/-- `sourceCppContext(file, code, platform)`: look the unit up by code when
code is non-empty, else by file; on a miss construct and insert a new unit
(build required); on a dirty hit regenerate the local copy of the unit (the
cache entry itself is a value copy and is not updated, as in the C++); on a
clean hit the build is required only when the dynlib has not been built. -/
def sourceCppContext (file code : String) (platform : Platform)
    (parse : String → SourceFileAttributes) (tmpDir : String) (rand : Nat)
    (now : Nat) (st : SysState) : Except Err (BuildContext × SysState) :=
  let d0 :=
    if code != "" then st.cache.lookupByCode code
    else st.cache.lookupByFile file
  if d0.isEmpty then do
    let (d, fs2) ← SourceCppDynlib.make file platform parse tmpDir rand st.fs now
    let cache2 :=
      if code != "" then st.cache.insertCode code d
      else st.cache.insertFile file d
    .ok (mkBuildContext d true, ⟨fs2, cache2⟩)
  else if d0.isSourceDirty st.fs then
    let (d, fs2) := d0.regenerateSource parse st.fs now
    .ok (mkBuildContext d true, ⟨fs2, st.cache⟩)
  else if !(d0.isBuilt st.fs) then
    .ok (mkBuildContext d0 true, st)
  else
    .ok (mkBuildContext d0 false, st)

/-! ## Claim C3: base commit semantics -/

/-- C3: `ExportsGenerator::commit` writes the target and returns true exactly
when the assembled header+body differs byte-for-byte from the content read at
construction and the early exit (empty body, target absent) does not apply;
on a false return it performs no write; in particular an empty body with no
pre-existing target file does nothing and returns false. -/
theorem commitBase_writes_iff_differs (g : ExportsGenerator)
    (code preamble : String) (fs : FS) (now : Nat) :
    ((commitBase g code preamble fs now).2 = true ↔
      ¬(code = "" ∧ fs.existsFile g.targetFile = false) ∧
      assembledOf g.commentPfx preamble code ≠ g.existingCode) ∧
    ((commitBase g code preamble fs now).2 = true →
      (commitBase g code preamble fs now).1 =
        fs.write g.targetFile ⟨assembledOf g.commentPfx preamble code, now⟩) ∧
    ((commitBase g code preamble fs now).2 = false →
      (commitBase g code preamble fs now).1 = fs) := by
  unfold commitBase
  by_cases h1 : code = ""
  · by_cases h2 : fs.existsFile g.targetFile
    · simp only [h1, h2]
      by_cases h3 : assembledOf g.commentPfx preamble "" ≠ g.existingCode
      · simp [h3, h2]
      · simp at h3
        simp [h3, h2]
    · simp only [Bool.not_eq_true] at h2
      simp [h1, h2]
  · by_cases h3 : assembledOf g.commentPfx preamble code ≠ g.existingCode
    · simp [h1, h3]
    · simp at h3
      simp [h1, h3]

/-- Witness for C3 at a concrete input: committing a fresh body over an
empty filesystem writes the assembled content and reports a change. -/
theorem commitBase_writes_iff_differs_witness :
    (commitBase ⟨"t.cpp", "//", ""⟩ "body\n" "" ⟨[]⟩ 5).2 = true ∧
    (commitBase ⟨"t.cpp", "//", ""⟩ "body\n" "" ⟨[]⟩ 5).1 =
      FS.write ⟨[]⟩ "t.cpp" ⟨assembledOf "//" "" "body\n", 5⟩ := by
  refine ⟨?_, ?_⟩
  · rfl
  · exact (commitBase_writes_iff_differs ⟨"t.cpp", "//", ""⟩ "body\n" "" ⟨[]⟩ 5).2.1 rfl

/-! ## Claim C10: the wrapper-script commit ignores includes and prototypes -/

/-- C10: two invocations of `RExportsGenerator::commit` that differ only in
the `includes` and `prototypes` arguments produce identical filesystems and
identical return values: the wrapper-script generator ignores both. -/
theorem rExportsCommit_ignores_includes_prototypes (g : ExportsGenerator)
    (code : String) (includes1 prototypes1 includes2 prototypes2 : List String)
    (fs : FS) (now : Nat) :
    RExportsGenerator.commit g code includes1 prototypes1 fs now =
      RExportsGenerator.commit g code includes2 prototypes2 fs now := rfl

/-! ## Claims C2 and C9: the safe-overwrite guard -/

/-- Filesystem with an existing target whose content is empty. -/
def c2fs : FS := ⟨[("pkg/src/RcppExports.cpp", ⟨"", 5⟩)]⟩

/-- Counterexample to C2 as stated: this target file exists and its
(empty) content does not contain the generator token, yet construction
succeeds instead of failing with `UnsafeOverwriteError`. -/
theorem construct_empty_file_succeeds_cex :
    c2fs.existsFile "pkg/src/RcppExports.cpp" = true ∧
    strContains "" generatorToken = false ∧
    ExportsGenerator.construct c2fs "pkg/src/RcppExports.cpp" "//" =
      .ok ⟨"pkg/src/RcppExports.cpp", "//", ""⟩ :=
  ⟨rfl, rfl, rfl⟩

/-- C2 (amended): for every target file that exists with non-empty content
not containing the generator token, construction fails with
`UnsafeOverwriteError` (and, the constructor performing no write, the file
is untouched). -/
theorem construct_fails_on_foreign_content (fs : FS)
    (target commentPfx content : String) (m : Nat)
    (hread : fs.read target = some ⟨content, m⟩)
    (hne : content ≠ "")
    (htok : strContains content generatorToken = false) :
    ExportsGenerator.construct fs target commentPfx =
      .error (.fileExists target) := by
  unfold ExportsGenerator.construct
  have hc : fs.contentAt target = some content := by
    simp [FS.contentAt, hread]
  rw [hc]
  simp [isSafeToOverwrite, hne, htok]

/-- Witness for amended C2: a hand-authored file is protected. -/
theorem construct_fails_on_foreign_content_witness :
    ExportsGenerator.construct ⟨[("t.R", ⟨"hello", 1⟩)]⟩ "t.R" "#" =
      .error (.fileExists "t.R") :=
  construct_fails_on_foreign_content ⟨[("t.R", ⟨"hello", 1⟩)]⟩ "t.R" "#"
    "hello" 1 rfl (by decide) rfl

/-- C9: an existing but empty target file is treated as safe to overwrite:
construction succeeds (with empty recorded existing content) even though the
file does not contain the generator token. -/
theorem construct_succeeds_on_empty_file (fs : FS)
    (target commentPfx : String) (m : Nat)
    (hread : fs.read target = some ⟨"", m⟩) :
    ExportsGenerator.construct fs target commentPfx =
      .ok ⟨target, commentPfx, ""⟩ := by
  unfold ExportsGenerator.construct
  have hc : fs.contentAt target = some "" := by
    simp [FS.contentAt, hread]
  rw [hc]
  simp [isSafeToOverwrite]

/-- Witness for C9 at a concrete empty file. -/
theorem construct_succeeds_on_empty_file_witness :
    ExportsGenerator.construct ⟨[("e.hpp", ⟨"", 3⟩)]⟩ "e.hpp" "//" =
      .ok ⟨"e.hpp", "//", ""⟩ :=
  construct_succeeds_on_empty_file ⟨[("e.hpp", ⟨"", 3⟩)]⟩ "e.hpp" "//" 3 rfl

/-! ## Claim C8: the shared export-filtering rule -/

/-- C8: an attribute counts as an exported function exactly when its name is
the export attribute kind and it carries a non-empty function signature; the
exported name is the first parameter's name when the parameter list is
non-empty, else the function's own name. -/
theorem exportFilterRule :
    (∀ a : Attribute,
      isExportedFunction a = true ↔
        a.name = kExportAttribute ∧ a.function.isSome = true) ∧
    (∀ (a : Attribute) (p : Param) (ps : List Param),
      a.params = p :: ps → exportedName a = p.name) ∧
    (∀ (a : Attribute) (f : Fn),
      a.params = [] → a.function = some f → exportedName a = f.name) := by
  refine ⟨?_, ?_, ?_⟩
  · intro a
    simp [isExportedFunction]
  · intro a p ps h
    simp [exportedName, h]
  · intro a f hp hf
    simp [exportedName, hp, hf]

/-- Witness for C8 at a concrete attribute carrying an override name. -/
theorem exportFilterRule_witness :
    isExportedFunction ⟨"export", some ⟨"fn", "int", []⟩, [⟨"ename", ""⟩], []⟩ = true ∧
    exportedName ⟨"export", some ⟨"fn", "int", []⟩, [⟨"ename", ""⟩], []⟩ = "ename" ∧
    exportedName ⟨"export", some ⟨"fn", "int", []⟩, [], []⟩ = "fn" :=
  ⟨(exportFilterRule.1 ⟨"export", some ⟨"fn", "int", []⟩, [⟨"ename", ""⟩], []⟩).mpr
      ⟨rfl, rfl⟩,
   exportFilterRule.2.1 ⟨"export", some ⟨"fn", "int", []⟩, [⟨"ename", ""⟩], []⟩
      ⟨"ename", ""⟩ [] rfl,
   exportFilterRule.2.2 ⟨"export", some ⟨"fn", "int", []⟩, [], []⟩
      ⟨"fn", "int", []⟩ rfl rfl⟩

/-! ## Claim C1: what the aggregate changed flag reports -/

theorem runPhases_no_cpp_interface_aux (attrsOf : String → SourceFileAttributes) :
    ∀ (files : List String) (init : Phases),
      init.hasCppInterface = false →
      (∀ f ∈ files, (attrsOf f).attributes ≠ [] → (attrsOf f).interfaceCpp = false) →
      (files.foldl (fun ph f => phasesStep ph (attrsOf f)) init).hasCppInterface = false := by
  intro files
  induction files with
  | nil => intro init h _; exact h
  | cons f fsRest ih =>
    intro init hinit hall
    simp only [List.foldl_cons]
    apply ih
    · unfold phasesStep
      by_cases he : (attrsOf f).attributes.isEmpty
      · simp [he, hinit]
      · have hne : (attrsOf f).attributes ≠ [] := by
          simpa [List.isEmpty_iff] using he
        have := hall f (by simp) hne
        simp [he, hinit, this]
    · intro g hg hne
      exact hall g (by simp [hg]) hne

/-- No file of the batch with attributes declares a C++ interface implies the
orchestrated phases never set the C++-interface flag. -/
theorem runPhases_no_cpp_interface (scope : String) (files : List String)
    (attrsOf : String → SourceFileAttributes)
    (h : ∀ f ∈ files, (attrsOf f).attributes ≠ [] → (attrsOf f).interfaceCpp = false) :
    (runPhases scope files attrsOf).hasCppInterface = false := by
  unfold runPhases
  exact runPhases_no_cpp_interface_aux attrsOf files _ rfl h

/-- Parser stub for the concrete C1 scenario: every file parses to an empty
attribute sequence with no interfaces. -/
def c1attrsOf : String → SourceFileAttributes := fun p => ⟨p, [], [], false, false⟩

/-- The forwarding-header path of the concrete C1 scenario. -/
def c1incPath : String := cppIncludePath "pkg" "/" "pn"

/-- Initial filesystem: only a previously generated forwarding header
(content holds the generator token, so construction accepts it). -/
def c1fs0 : FS := ⟨[(c1incPath, ⟨generatorToken, 0⟩)]⟩

/-- First batch run, which settles the manifest and wrapper script. -/
def c1run1 : Except Err (FS × Bool) :=
  compileAttributes "pkg" "pn" [] [] "/" c1attrsOf c1fs0 1

/-- Filesystem after the first run. -/
def c1fs1 : FS :=
  match c1run1 with
  | .ok r => r.1
  | .error _ => c1fs0

/-- The same filesystem with the forwarding header re-created (generated
provenance, so constructors accept it) while manifest and wrapper already
hold exactly the generated content. -/
def c1fs2 : FS := c1fs1.write c1incPath ⟨generatorToken, 2⟩

/-- Second batch run: zero native-interface exports, header present. -/
def c1run2 : Except Err (FS × Bool) :=
  compileAttributes "pkg" "pn" [] [] "/" c1attrsOf c1fs2 3

set_option maxRecDepth 100000 in
/-- Counterexample to C1 as stated: the batch has zero native-interface
exports, a forwarding header previously existed, the run deletes the header
— yet `compileAttributes` returns false, because
`CppIncludeGenerator::commit` reports false on its removal branch. -/
theorem compileExports_removal_returns_false_cex :
    (runPhases "pn" [] c1attrsOf).hasCppInterface = false ∧
    c1fs2.existsFile c1incPath = true ∧
    c1run2.map Prod.snd = .ok false ∧
    c1run2.map (fun r => r.1.existsFile c1incPath) = .ok false :=
  ⟨rfl, rfl, rfl, rfl⟩

/-- The generator a successful construction returns: the target, the comment
syntax, and the target content read from the filesystem (empty when the
target does not exist). -/
theorem construct_fields (fs : FS) (t p : String) (g : ExportsGenerator)
    (h : ExportsGenerator.construct fs t p = .ok g) :
    g = ⟨t, p, (fs.contentAt t).getD ""⟩ := by
  unfold ExportsGenerator.construct at h
  by_cases hs : isSafeToOverwrite ((fs.contentAt t).getD "")
  · simp only [hs, if_true, Except.ok.injEq] at h
    exact h.symm
  · simp [hs] at h

/-- C1 (amended): the changed flag is the OR of the per-generator commit
results; when the batch has zero native-interface exports the forwarding
header (which previously existed) is deleted, but that removal contributes
false, so the run reports a change only when the manifest or the wrapper
script was written. -/
theorem compileExports_changed_is_or_of_writes (packageDir packageName : String)
    (cppFiles includes : List String) (fileSep : String)
    (attrsOf : String → SourceFileAttributes) (fs : FS) (now : Nat)
    (fs3 : FS) (w : Bool)
    (hNoCpp : ∀ f ∈ cppFiles,
      (attrsOf f).attributes ≠ [] → (attrsOf f).interfaceCpp = false)
    (hExisted : fs.existsFile (cppIncludePath packageDir fileSep packageName) = true)
    (hRun : compileAttributes packageDir packageName cppFiles includes fileSep
      attrsOf fs now = .ok (fs3, w)) :
    fs3.existsFile (cppIncludePath packageDir fileSep packageName) = false ∧
    ∃ gCpp gR fs1 w1 fs2 w2,
      ExportsGenerator.construct fs (cppExportsPath packageDir fileSep) "//" = .ok gCpp ∧
      ExportsGenerator.construct fs (rExportsPath packageDir fileSep) "#" = .ok gR ∧
      CppExportsGenerator.commit gCpp (runPhases packageName cppFiles attrsOf).bufCpp
        includes (runPhases packageName cppFiles attrsOf).prototypes fs now = (fs1, w1) ∧
      RExportsGenerator.commit gR (runPhases packageName cppFiles attrsOf).bufR
        includes (runPhases packageName cppFiles attrsOf).prototypes fs1 now = (fs2, w2) ∧
      w = (w1 || w2) ∧
      fs3 = fs2.removeFile (cppIncludePath packageDir fileSep packageName) := by
  have hCppFlag := runPhases_no_cpp_interface packageName cppFiles attrsOf hNoCpp
  unfold compileAttributes at hRun
  cases hC : ExportsGenerator.construct fs (cppExportsPath packageDir fileSep) "//" with
  | error e => rw [hC] at hRun; simp [Bind.bind, Except.bind] at hRun
  | ok gCpp =>
  rw [hC] at hRun
  cases hR : ExportsGenerator.construct fs (rExportsPath packageDir fileSep) "#" with
  | error e => rw [hR] at hRun; simp [Bind.bind, Except.bind] at hRun
  | ok gR =>
  rw [hR] at hRun
  cases hI : ExportsGenerator.construct fs
      (cppIncludePath packageDir fileSep packageName) "//" with
  | error e => rw [hI] at hRun; simp [Bind.bind, Except.bind] at hRun
  | ok gInc =>
  rw [hI] at hRun
  have hgI := construct_fields fs (cppIncludePath packageDir fileSep packageName) "//" gInc hI
  subst hgI
  simp only [Bind.bind, Except.bind] at hRun
  rcases hc1 : CppExportsGenerator.commit gCpp
      (runPhases packageName cppFiles attrsOf).bufCpp includes
      (runPhases packageName cppFiles attrsOf).prototypes fs now with ⟨fs1, w1⟩
  rw [hc1] at hRun
  rcases hc2 : RExportsGenerator.commit gR
      (runPhases packageName cppFiles attrsOf).bufR includes
      (runPhases packageName cppFiles attrsOf).prototypes fs1 now with ⟨fs2, w2⟩
  rw [hc2] at hRun
  rw [hCppFlag] at hRun
  simp only [CppIncludeGenerator.commit, if_neg] at hRun
  simp only [Bool.false_eq_true, if_false] at hRun
  have hfs3 : fs2.removeFile (cppIncludePath packageDir fileSep packageName) = fs3 ∧
      (w1 || w2 || false) = w := by
    have := hRun
    simp only [Except.ok.injEq, Prod.mk.injEq] at this
    exact this
  refine ⟨?_, gCpp, gR, fs1, w1, fs2, w2, rfl, rfl, hc1, hc2, ?_, ?_⟩
  · rw [← hfs3.1]
    simp [FS.existsFile, FS.read_remove_self]
  · rw [← hfs3.2]
    simp
  · exact hfs3.1.symm

/-- Filesystem after the second C1 run. -/
def c1fs3 : FS :=
  match c1run2 with
  | .ok r => r.1
  | .error _ => c1fs0

/-- Changed flag of the second C1 run. -/
def c1w : Bool :=
  match c1run2 with
  | .ok r => r.2
  | .error _ => true

set_option maxRecDepth 100000 in
/-- Witness for amended C1 at the concrete scenario: the header disappears
and the flag is the OR of the manifest and wrapper commits. -/
theorem compileExports_changed_is_or_of_writes_witness :
    c1fs3.existsFile (cppIncludePath "pkg" "/" "pn") = false ∧
    ∃ gCpp gR fs1 w1 fs2 w2,
      ExportsGenerator.construct c1fs2 (cppExportsPath "pkg" "/") "//" = .ok gCpp ∧
      ExportsGenerator.construct c1fs2 (rExportsPath "pkg" "/") "#" = .ok gR ∧
      CppExportsGenerator.commit gCpp (runPhases "pn" [] c1attrsOf).bufCpp
        [] (runPhases "pn" [] c1attrsOf).prototypes c1fs2 3 = (fs1, w1) ∧
      RExportsGenerator.commit gR (runPhases "pn" [] c1attrsOf).bufR
        [] (runPhases "pn" [] c1attrsOf).prototypes fs1 3 = (fs2, w2) ∧
      c1w = (w1 || w2) ∧
      c1fs3 = fs2.removeFile (cppIncludePath "pkg" "/" "pn") :=
  compileExports_changed_is_or_of_writes "pkg" "pn" [] [] "/" c1attrsOf c1fs2 3
    c1fs3 c1w
    (by intro f hf; exact absurd hf (List.not_mem_nil f))
    rfl rfl

/-! ## Claim C7: a second identical run is a no-op -/

theorem str_append_ne_right (a b : String) (hb : b ≠ "") : a ++ b ≠ "" := by
  intro h
  have hd := congrArg String.data h
  simp only [String.data_append] at hd
  have hnil : a.data ++ b.data = [] := hd
  exact hb (String.ext (List.append_eq_nil.mp hnil).2)

theorem str_append_ne_left (a b : String) (ha : a ≠ "") : a ++ b ≠ "" := by
  intro h
  have hd := congrArg String.data h
  simp only [String.data_append] at hd
  have hnil : a.data ++ b.data = [] := hd
  exact ha (String.ext (List.append_eq_nil.mp hnil).1)

theorem loadModuleText_ne_empty (l : List String) : loadModuleText l ≠ "" :=
  str_append_ne_left _ _ (by decide)

theorem runPhases_bufCpp_ne_empty (scope : String) (files : List String)
    (attrsOf : String → SourceFileAttributes) :
    (runPhases scope files attrsOf).bufCpp ≠ "" :=
  str_append_ne_right _ _ (by decide)

theorem runPhases_bufR_ne_empty (scope : String) (files : List String)
    (attrsOf : String → SourceFileAttributes) :
    (runPhases scope files attrsOf).bufR ≠ "" :=
  str_append_ne_right _ _ (loadModuleText_ne_empty _)

theorem runPhases_bufInc_ne_empty (scope : String) (files : List String)
    (attrsOf : String → SourceFileAttributes) :
    (runPhases scope files attrsOf).bufInc ≠ "" :=
  str_append_ne_right _ _ (by decide)

/-- After a commit whose body is non-empty and whose recorded existing
content matches the filesystem at commit time, the target holds exactly the
assembled content (whether or not a write happened). -/
theorem commit_contentAt_self (g : ExportsGenerator) (code preamble : String)
    (fs : FS) (now : Nat)
    (hcode : code ≠ "")
    (hex : g.existingCode = (fs.contentAt g.targetFile).getD "") :
    (commitBase g code preamble fs now).1.contentAt g.targetFile =
      some (assembledOf g.commentPfx preamble code) := by
  unfold commitBase
  have h1 : (code == "") = false := by simp [hcode]
  simp only [h1, Bool.false_and, Bool.and_eq_true, if_neg, Bool.false_eq_true,
    not_false_eq_true]
  by_cases h2 : assembledOf g.commentPfx preamble code = g.existingCode
  · have h3 : (assembledOf g.commentPfx preamble code != g.existingCode) = false := by
      simp [h2]
    simp only [h3, Bool.false_eq_true, if_false]
    cases hcase : fs.contentAt g.targetFile with
    | none =>
      rw [hcase] at hex
      simp only [Option.getD_none] at hex
      exact absurd (h2.trans hex) (assembled_ne_empty _ _ _)
    | some c =>
      rw [hcase] at hex
      simp only [Option.getD_some] at hex
      rw [h2, hex]
  · have h3 : (assembledOf g.commentPfx preamble code != g.existingCode) = true := by
      simp [h2]
    simp only [h3, if_true]
    simp [FS.contentAt, FS.read_write_self]

/-- A commit never touches any path other than its own target. -/
theorem commit_contentAt_ne (g : ExportsGenerator) (code preamble : String)
    (fs : FS) (now : Nat) (q : String) (hq : q ≠ g.targetFile) :
    (commitBase g code preamble fs now).1.contentAt q = fs.contentAt q := by
  unfold commitBase
  by_cases h1 : (code == "" && !fs.existsFile g.targetFile) = true
  · simp [h1]
  · simp only [Bool.not_eq_true] at h1
    simp only [h1, Bool.false_eq_true, if_false]
    by_cases h2 : (assembledOf g.commentPfx preamble code != g.existingCode) = true
    · simp only [h2, if_true]
      simp [FS.contentAt, FS.read_write_ne fs g.targetFile q _ hq]
    · simp only [Bool.not_eq_true] at h2
      simp [h2]

/-- A commit whose recorded existing content already equals the assembled
content is a no-op returning false. -/
theorem commitBase_noop_of_same (g : ExportsGenerator) (code preamble : String)
    (fs : FS) (now : Nat)
    (h : g.existingCode = assembledOf g.commentPfx preamble code) :
    commitBase g code preamble fs now = (fs, false) := by
  unfold commitBase
  by_cases h1 : (code == "" && !fs.existsFile g.targetFile) = true
  · simp [h1]
  · simp only [Bool.not_eq_true] at h1
    have h2 : (assembledOf g.commentPfx preamble code != g.existingCode) = false := by
      simp [h]
    simp [h1, h2]

/-- Assembled generated content is always safe to overwrite: it embeds the
generator token. -/
theorem isSafe_assembled (commentPfx preamble code : String) :
    isSafeToOverwrite (assembledOf commentPfx preamble code) = true := by
  simp [isSafeToOverwrite, generatorToken_in_assembled]

/-- Construction succeeds whenever the target's current content is safe. -/
theorem construct_ok_of_safe (fs : FS) (t p : String)
    (h : isSafeToOverwrite ((fs.contentAt t).getD "") = true) :
    ExportsGenerator.construct fs t p = .ok ⟨t, p, (fs.contentAt t).getD ""⟩ := by
  unfold ExportsGenerator.construct
  simp [h]

/-- Post-state of a successful batch run: the manifest and wrapper script
hold exactly the assembled generated content, and the forwarding header
either holds its assembled content (C++ interface present) or is absent
(removed). -/
theorem compileAttributes_post (packageDir packageName : String)
    (cppFiles includes : List String) (fileSep : String)
    (attrsOf : String → SourceFileAttributes) (fs : FS) (now : Nat)
    (fs3 : FS) (w : Bool)
    (hRun : compileAttributes packageDir packageName cppFiles includes fileSep
      attrsOf fs now = .ok (fs3, w)) :
    fs3.contentAt (cppExportsPath packageDir fileSep) =
      some (assembledOf "//"
        (cppExportsPreamble includes (runPhases packageName cppFiles attrsOf).prototypes)
        (runPhases packageName cppFiles attrsOf).bufCpp) ∧
    fs3.contentAt (rExportsPath packageDir fileSep) =
      some (assembledOf "#" "" (runPhases packageName cppFiles attrsOf).bufR) ∧
    (((runPhases packageName cppFiles attrsOf).hasCppInterface = true ∧
      fs3.contentAt (cppIncludePath packageDir fileSep packageName) =
        some (assembledOf "//" (cppIncludePreamble includes)
          (runPhases packageName cppFiles attrsOf).bufInc)) ∨
     ((runPhases packageName cppFiles attrsOf).hasCppInterface = false ∧
      fs3.contentAt (cppIncludePath packageDir fileSep packageName) = none)) := by
  have dCR := cppExportsPath_ne_rExportsPath packageDir fileSep
  have dCI := cppExportsPath_ne_cppIncludePath packageDir fileSep packageName
  have dRI := rExportsPath_ne_cppIncludePath packageDir fileSep packageName
  unfold compileAttributes at hRun
  cases hC : ExportsGenerator.construct fs (cppExportsPath packageDir fileSep) "//" with
  | error e => rw [hC] at hRun; simp [Bind.bind, Except.bind] at hRun
  | ok gCpp =>
  rw [hC] at hRun
  have hgC := construct_fields fs (cppExportsPath packageDir fileSep) "//" gCpp hC
  subst hgC
  cases hR : ExportsGenerator.construct fs (rExportsPath packageDir fileSep) "#" with
  | error e => rw [hR] at hRun; simp [Bind.bind, Except.bind] at hRun
  | ok gR =>
  rw [hR] at hRun
  have hgR := construct_fields fs (rExportsPath packageDir fileSep) "#" gR hR
  subst hgR
  cases hI : ExportsGenerator.construct fs
      (cppIncludePath packageDir fileSep packageName) "//" with
  | error e => rw [hI] at hRun; simp [Bind.bind, Except.bind] at hRun
  | ok gInc =>
  rw [hI] at hRun
  have hgI := construct_fields fs (cppIncludePath packageDir fileSep packageName) "//" gInc hI
  subst hgI
  simp only [Bind.bind, Except.bind] at hRun
  rcases hc1 : CppExportsGenerator.commit
      ⟨cppExportsPath packageDir fileSep, "//",
        (fs.contentAt (cppExportsPath packageDir fileSep)).getD ""⟩
      (runPhases packageName cppFiles attrsOf).bufCpp includes
      (runPhases packageName cppFiles attrsOf).prototypes fs now with ⟨fs1, w1⟩
  rw [hc1] at hRun
  simp only [CppExportsGenerator.commit] at hc1
  have e1 := congrArg Prod.fst hc1
  simp only at e1
  rcases hc2 : RExportsGenerator.commit
      ⟨rExportsPath packageDir fileSep, "#",
        (fs.contentAt (rExportsPath packageDir fileSep)).getD ""⟩
      (runPhases packageName cppFiles attrsOf).bufR includes
      (runPhases packageName cppFiles attrsOf).prototypes fs1 now with ⟨fs2, w2⟩
  rw [hc2] at hRun
  simp only [RExportsGenerator.commit] at hc2
  have e2 := congrArg Prod.fst hc2
  simp only at e2
  have h1C : fs1.contentAt (cppExportsPath packageDir fileSep) =
      some (assembledOf "//"
        (cppExportsPreamble includes (runPhases packageName cppFiles attrsOf).prototypes)
        (runPhases packageName cppFiles attrsOf).bufCpp) := by
    rw [← e1]
    exact commit_contentAt_self _ _ _ fs now
      (runPhases_bufCpp_ne_empty packageName cppFiles attrsOf) rfl
  have h1R : fs1.contentAt (rExportsPath packageDir fileSep) =
      fs.contentAt (rExportsPath packageDir fileSep) := by
    rw [← e1]
    exact commit_contentAt_ne _ _ _ fs now _ (Ne.symm dCR)
  have h1I : fs1.contentAt (cppIncludePath packageDir fileSep packageName) =
      fs.contentAt (cppIncludePath packageDir fileSep packageName) := by
    rw [← e1]
    exact commit_contentAt_ne _ _ _ fs now _ (Ne.symm dCI)
  have h2R : fs2.contentAt (rExportsPath packageDir fileSep) =
      some (assembledOf "#" "" (runPhases packageName cppFiles attrsOf).bufR) := by
    rw [← e2]
    refine commit_contentAt_self _ _ _ fs1 now
      (runPhases_bufR_ne_empty packageName cppFiles attrsOf) ?_
    show (fs.contentAt (rExportsPath packageDir fileSep)).getD "" =
      (fs1.contentAt (rExportsPath packageDir fileSep)).getD ""
    rw [h1R]
  have h2C : fs2.contentAt (cppExportsPath packageDir fileSep) =
      fs1.contentAt (cppExportsPath packageDir fileSep) := by
    rw [← e2]
    exact commit_contentAt_ne _ _ _ fs1 now _ dCR
  have h2I : fs2.contentAt (cppIncludePath packageDir fileSep packageName) =
      fs1.contentAt (cppIncludePath packageDir fileSep packageName) := by
    rw [← e2]
    exact commit_contentAt_ne _ _ _ fs1 now _ (Ne.symm dRI)
  by_cases hFlag : (runPhases packageName cppFiles attrsOf).hasCppInterface = true
  · rcases hc3 : CppIncludeGenerator.commit
        ⟨cppIncludePath packageDir fileSep packageName, "//",
          (fs.contentAt (cppIncludePath packageDir fileSep packageName)).getD ""⟩
        (runPhases packageName cppFiles attrsOf).bufInc
        (runPhases packageName cppFiles attrsOf).hasCppInterface includes
        (runPhases packageName cppFiles attrsOf).prototypes fs2 now with ⟨fs3x, w3⟩
    rw [hc3] at hRun
    simp only [CppIncludeGenerator.commit, hFlag, if_true] at hc3
    have e3 := congrArg Prod.fst hc3
    simp only at e3
    simp only [Except.ok.injEq, Prod.mk.injEq] at hRun
    obtain ⟨hfs3, _⟩ := hRun
    subst hfs3
    have h3I : fs3x.contentAt (cppIncludePath packageDir fileSep packageName) =
        some (assembledOf "//" (cppIncludePreamble includes)
          (runPhases packageName cppFiles attrsOf).bufInc) := by
      rw [← e3]
      refine commit_contentAt_self _ _ _ fs2 now
        (runPhases_bufInc_ne_empty packageName cppFiles attrsOf) ?_
      show (fs.contentAt (cppIncludePath packageDir fileSep packageName)).getD "" =
        (fs2.contentAt (cppIncludePath packageDir fileSep packageName)).getD ""
      rw [h2I, h1I]
    have h3C : fs3x.contentAt (cppExportsPath packageDir fileSep) =
        fs2.contentAt (cppExportsPath packageDir fileSep) := by
      rw [← e3]
      exact commit_contentAt_ne _ _ _ fs2 now _ dCI
    have h3R : fs3x.contentAt (rExportsPath packageDir fileSep) =
        fs2.contentAt (rExportsPath packageDir fileSep) := by
      rw [← e3]
      exact commit_contentAt_ne _ _ _ fs2 now _ dRI
    exact ⟨by rw [h3C, h2C, h1C], by rw [h3R, h2R],
      Or.inl ⟨hFlag, h3I⟩⟩
  · have hFlagF : (runPhases packageName cppFiles attrsOf).hasCppInterface = false := by
      simpa using hFlag
    simp only [CppIncludeGenerator.commit, hFlagF, Bool.false_eq_true, if_false] at hRun
    simp only [Except.ok.injEq, Prod.mk.injEq] at hRun
    obtain ⟨hfs3, _⟩ := hRun
    subst hfs3
    refine ⟨?_, ?_, Or.inr ⟨hFlagF, ?_⟩⟩
    · have : (fs2.removeFile
          (cppIncludePath packageDir fileSep packageName)).contentAt
          (cppExportsPath packageDir fileSep) =
          fs2.contentAt (cppExportsPath packageDir fileSep) := by
        simp [FS.contentAt, FS.read_remove_ne fs2 _ _ dCI]
      rw [this, h2C, h1C]
    · have : (fs2.removeFile
          (cppIncludePath packageDir fileSep packageName)).contentAt
          (rExportsPath packageDir fileSep) =
          fs2.contentAt (rExportsPath packageDir fileSep) := by
        simp [FS.contentAt, FS.read_remove_ne fs2 _ _ dRI]
      rw [this, h2R]
    · simp [FS.contentAt, FS.read_remove_self]

/-- C7: running the batch compilation twice in succession with identical
arguments and no changes in between returns false (no artifact written or
removed) on the second run. -/
theorem compileExports_second_run_noop (packageDir packageName : String)
    (cppFiles includes : List String) (fileSep : String)
    (attrsOf : String → SourceFileAttributes) (fs : FS) (now now2 : Nat)
    (fs3 : FS) (w : Bool)
    (hRun : compileAttributes packageDir packageName cppFiles includes fileSep
      attrsOf fs now = .ok (fs3, w)) :
    (compileAttributes packageDir packageName cppFiles includes fileSep
      attrsOf fs3 now2).map Prod.snd = .ok false := by
  obtain ⟨hC, hR, hI⟩ := compileAttributes_post packageDir packageName cppFiles
    includes fileSep attrsOf fs now fs3 w hRun
  have hg1 : ExportsGenerator.construct fs3 (cppExportsPath packageDir fileSep) "//" =
      .ok ⟨cppExportsPath packageDir fileSep, "//",
        assembledOf "//"
          (cppExportsPreamble includes (runPhases packageName cppFiles attrsOf).prototypes)
          (runPhases packageName cppFiles attrsOf).bufCpp⟩ := by
    have hsafe : isSafeToOverwrite
        ((fs3.contentAt (cppExportsPath packageDir fileSep)).getD "") = true := by
      rw [hC]
      exact isSafe_assembled _ _ _
    rw [construct_ok_of_safe fs3 _ _ hsafe, hC]
    rfl
  have hg2 : ExportsGenerator.construct fs3 (rExportsPath packageDir fileSep) "#" =
      .ok ⟨rExportsPath packageDir fileSep, "#",
        assembledOf "#" "" (runPhases packageName cppFiles attrsOf).bufR⟩ := by
    have hsafe : isSafeToOverwrite
        ((fs3.contentAt (rExportsPath packageDir fileSep)).getD "") = true := by
      rw [hR]
      exact isSafe_assembled _ _ _
    rw [construct_ok_of_safe fs3 _ _ hsafe, hR]
    rfl
  rcases hI with ⟨hFlag, hIc⟩ | ⟨hFlagF, hIn⟩
  · have hg3 : ExportsGenerator.construct fs3
        (cppIncludePath packageDir fileSep packageName) "//" =
        .ok ⟨cppIncludePath packageDir fileSep packageName, "//",
          assembledOf "//" (cppIncludePreamble includes)
            (runPhases packageName cppFiles attrsOf).bufInc⟩ := by
      have hsafe : isSafeToOverwrite
          ((fs3.contentAt (cppIncludePath packageDir fileSep packageName)).getD "") = true := by
        rw [hIc]
        exact isSafe_assembled _ _ _
      rw [construct_ok_of_safe fs3 _ _ hsafe, hIc]
      rfl
    unfold compileAttributes
    rw [hg1, hg2, hg3]
    simp only [Bind.bind, Except.bind]
    rw [show CppExportsGenerator.commit
        ⟨cppExportsPath packageDir fileSep, "//",
          assembledOf "//"
            (cppExportsPreamble includes (runPhases packageName cppFiles attrsOf).prototypes)
            (runPhases packageName cppFiles attrsOf).bufCpp⟩
        (runPhases packageName cppFiles attrsOf).bufCpp includes
        (runPhases packageName cppFiles attrsOf).prototypes fs3 now2 = (fs3, false) from
      commitBase_noop_of_same _ _ _ _ _ rfl]
    rw [show RExportsGenerator.commit
        ⟨rExportsPath packageDir fileSep, "#",
          assembledOf "#" "" (runPhases packageName cppFiles attrsOf).bufR⟩
        (runPhases packageName cppFiles attrsOf).bufR includes
        (runPhases packageName cppFiles attrsOf).prototypes fs3 now2 = (fs3, false) from
      commitBase_noop_of_same _ _ _ _ _ rfl]
    rw [show CppIncludeGenerator.commit
        ⟨cppIncludePath packageDir fileSep packageName, "//",
          assembledOf "//" (cppIncludePreamble includes)
            (runPhases packageName cppFiles attrsOf).bufInc⟩
        (runPhases packageName cppFiles attrsOf).bufInc
        (runPhases packageName cppFiles attrsOf).hasCppInterface includes
        (runPhases packageName cppFiles attrsOf).prototypes fs3 now2 = (fs3, false) from by
      simp only [CppIncludeGenerator.commit, hFlag, if_true]
      exact commitBase_noop_of_same _ _ _ _ _ rfl]
    rfl
  · have hg3 : ExportsGenerator.construct fs3
        (cppIncludePath packageDir fileSep packageName) "//" =
        .ok ⟨cppIncludePath packageDir fileSep packageName, "//", ""⟩ := by
      have hsafe : isSafeToOverwrite
          ((fs3.contentAt (cppIncludePath packageDir fileSep packageName)).getD "") = true := by
        rw [hIn]
        rfl
      rw [construct_ok_of_safe fs3 _ _ hsafe, hIn]
      rfl
    unfold compileAttributes
    rw [hg1, hg2, hg3]
    simp only [Bind.bind, Except.bind]
    rw [show CppExportsGenerator.commit
        ⟨cppExportsPath packageDir fileSep, "//",
          assembledOf "//"
            (cppExportsPreamble includes (runPhases packageName cppFiles attrsOf).prototypes)
            (runPhases packageName cppFiles attrsOf).bufCpp⟩
        (runPhases packageName cppFiles attrsOf).bufCpp includes
        (runPhases packageName cppFiles attrsOf).prototypes fs3 now2 = (fs3, false) from
      commitBase_noop_of_same _ _ _ _ _ rfl]
    rw [show RExportsGenerator.commit
        ⟨rExportsPath packageDir fileSep, "#",
          assembledOf "#" "" (runPhases packageName cppFiles attrsOf).bufR⟩
        (runPhases packageName cppFiles attrsOf).bufR includes
        (runPhases packageName cppFiles attrsOf).prototypes fs3 now2 = (fs3, false) from
      commitBase_noop_of_same _ _ _ _ _ rfl]
    rw [show CppIncludeGenerator.commit
        ⟨cppIncludePath packageDir fileSep packageName, "//", ""⟩
        (runPhases packageName cppFiles attrsOf).bufInc
        (runPhases packageName cppFiles attrsOf).hasCppInterface includes
        (runPhases packageName cppFiles attrsOf).prototypes fs3 now2 =
        (fs3.removeFile (cppIncludePath packageDir fileSep packageName), false) from by
      simp only [CppIncludeGenerator.commit, hFlagF, Bool.false_eq_true, if_false]]
    rfl

/-- Changed flag of the first C1 run (reused as a concrete C7 scenario). -/
def c1w1 : Bool :=
  match c1run1 with
  | .ok r => r.2
  | .error _ => false

set_option maxRecDepth 100000 in
/-- Witness for C7: re-running the concrete batch over the filesystem the
first run produced reports no change. -/
theorem compileExports_second_run_noop_witness :
    (compileAttributes "pkg" "pn" [] [] "/" c1attrsOf c1fs1 9).map Prod.snd =
      .ok false :=
  compileExports_second_run_noop "pkg" "pn" [] [] "/" c1attrsOf c1fs0 1 9
    c1fs1 c1w1 rfl

/-! ## Claim C4: module-name uniqueness -/

theorem toDigitsCore_acc (n : Nat) :
    ∀ f l, n < f →
      Nat.toDigitsCore 10 f n l = Nat.toDigits 10 n ++ l := by
  induction n using Nat.strong_induction_on with
  | _ n ih =>
    intro f l hf
    match f with
    | 0 => omega
    | f' + 1 =>
      by_cases hq : n / 10 = 0
      · simp [Nat.toDigitsCore, Nat.toDigits, hq]
      · have hn1 : 1 ≤ n := by
          by_contra hc
          push_neg at hc
          interval_cases n
          simp at hq
        have hlt : n / 10 < n := Nat.div_lt_self hn1 (by omega)
        have hfq : n / 10 < f' := by omega
        have lhs : Nat.toDigitsCore 10 (f' + 1) n l =
            Nat.toDigitsCore 10 f' (n / 10) (Nat.digitChar (n % 10) :: l) := by
          simp [Nat.toDigitsCore, hq]
        have rhs : Nat.toDigits 10 n =
            Nat.toDigitsCore 10 n (n / 10) [Nat.digitChar (n % 10)] := by
          simp [Nat.toDigits, Nat.toDigitsCore, hq]
        rw [lhs, rhs, ih (n / 10) hlt f' _ hfq, ih (n / 10) hlt n _ hlt]
        simp

/-- Decimal digit characters decode back to their value. -/
theorem digitChar_toNat (k : Nat) (hk : k < 10) :
    (Nat.digitChar k).toNat = 48 + k := by
  interval_cases k <;> rfl

/-- Decimal valuation of a digit string (most significant first). -/
def valL (l : List Char) : Nat :=
  l.foldl (fun a c => a * 10 + (c.toNat - 48)) 0

theorem valL_aux (l : List Char) (c : Char) :
    ∀ a, (l ++ [c]).foldl (fun a c => a * 10 + (c.toNat - 48)) a =
      (l.foldl (fun a c => a * 10 + (c.toNat - 48)) a) * 10 + (c.toNat - 48) := by
  intro a
  rw [List.foldl_append]
  rfl

theorem valL_toDigits (n : Nat) : valL (Nat.toDigits 10 n) = n := by
  induction n using Nat.strong_induction_on with
  | _ n ih =>
    by_cases hq : n / 10 = 0
    · have hn10 : n < 10 := by omega
      have : Nat.toDigits 10 n = [Nat.digitChar (n % 10)] := by
        simp [Nat.toDigits, Nat.toDigitsCore, hq]
      rw [this]
      simp [valL, digitChar_toNat (n % 10) (Nat.mod_lt n (by omega)), List.foldl]
      omega
    · have hn1 : 1 ≤ n := by
        by_contra hc
        push_neg at hc
        interval_cases n
        simp at hq
      have hlt : n / 10 < n := Nat.div_lt_self hn1 (by omega)
      have step : Nat.toDigits 10 n =
          Nat.toDigits 10 (n / 10) ++ [Nat.digitChar (n % 10)] := by
        have : Nat.toDigits 10 n =
            Nat.toDigitsCore 10 n (n / 10) [Nat.digitChar (n % 10)] := by
          simp [Nat.toDigits, Nat.toDigitsCore, hq]
        rw [this, toDigitsCore_acc (n / 10) n _ hlt]
      rw [step]
      unfold valL
      rw [valL_aux]
      have hv := ih (n / 10) hlt
      unfold valL at hv
      rw [hv, digitChar_toNat (n % 10) (Nat.mod_lt n (by omega))]
      omega

/-- The decimal rendering of naturals is injective. -/
theorem nat_repr_injective (m n : Nat) (h : Nat.repr m = Nat.repr n) : m = n := by
  unfold Nat.repr at h
  have hd := congrArg String.data h
  have hl : Nat.toDigits 10 m = Nat.toDigits 10 n := hd
  have := congrArg valL hl
  rwa [valL_toDigits, valL_toDigits] at this

/-- A successfully constructed unit's module name is the fixed stem plus the
decimal rendering of the injected random draw. -/
theorem make_moduleName (path : String) (plat : Platform)
    (parse : String → SourceFileAttributes) (tmp : String) (r : Nat)
    (fs : FS) (now : Nat) (d : SourceCppDynlib) (g : FS)
    (h : SourceCppDynlib.make path plat parse tmp r fs now = .ok (d, g)) :
    d.moduleName = "sourceCpp_" ++ Nat.repr r := by
  unfold SourceCppDynlib.make at h
  cases hread : fs.read path with
  | none => rw [hread] at h; simp at h
  | some info =>
    rw [hread] at h
    simp only [Except.ok.injEq] at h
    have hd := congrArg Prod.fst h
    simp only [Prod.fst] at hd
    rw [← hd]
    rfl

/-- A successfully constructed unit records the injected build directory. -/
theorem make_buildDirectory (path : String) (plat : Platform)
    (parse : String → SourceFileAttributes) (tmp : String) (r : Nat)
    (fs : FS) (now : Nat) (d : SourceCppDynlib) (g : FS)
    (h : SourceCppDynlib.make path plat parse tmp r fs now = .ok (d, g)) :
    d.buildDirectory = tmp := by
  unfold SourceCppDynlib.make at h
  cases hread : fs.read path with
  | none => rw [hread] at h; simp at h
  | some info =>
    rw [hread] at h
    simp only [Except.ok.injEq] at h
    have hd := congrArg Prod.fst h
    simp only [Prod.fst] at hd
    rw [← hd]
    rfl

/-- Parser stub for the concrete C4 scenario. -/
def c4parse : String → SourceFileAttributes := fun p => ⟨p, [], [], false, false⟩

/-- Source filesystem for the concrete C4 scenario. -/
def c4fs : FS := ⟨[("a.cpp", ⟨"x", 10⟩)]⟩

/-- First ad hoc construction: build directory T1, random draw 7. -/
def c4make1 : Except Err (SourceCppDynlib × FS) :=
  SourceCppDynlib.make "a.cpp" ⟨"/", ".so"⟩ c4parse "T1" 7 c4fs 10

/-- Second ad hoc construction over the same source: build directory T2,
random draw again 7 (`sample(100000, 1)` can repeat a value). -/
def c4make2 : Except Err (SourceCppDynlib × FS) :=
  SourceCppDynlib.make "a.cpp" ⟨"/", ".so"⟩ c4parse "T2" 7 c4fs 10

/-- Counterexample to C4 as stated: two independently constructed units
(distinct build directories) whose random draws coincide share the module
name `sourceCpp_7` — the fresh random suffix does not guarantee
distinctness. -/
theorem buildUnits_share_moduleName_cex :
    c4make1.map (fun r => r.1.moduleName) = .ok "sourceCpp_7" ∧
    c4make2.map (fun r => r.1.moduleName) = .ok "sourceCpp_7" ∧
    c4make1.map (fun r => r.1.buildDirectory) = .ok "T1" ∧
    c4make2.map (fun r => r.1.buildDirectory) = .ok "T2" :=
  ⟨rfl, rfl, rfl, rfl⟩

/-- C4 (amended): two constructed units have distinct module names whenever
their injected random draws differ; uniqueness holds only up to the
distinctness of the draws. -/
theorem moduleName_distinct_of_distinct_draws
    (path1 path2 : String) (plat1 plat2 : Platform)
    (parse1 parse2 : String → SourceFileAttributes)
    (tmp1 tmp2 : String) (r1 r2 : Nat) (fs1 fs2 : FS) (now1 now2 : Nat)
    (d1 d2 : SourceCppDynlib) (g1 g2 : FS)
    (h1 : SourceCppDynlib.make path1 plat1 parse1 tmp1 r1 fs1 now1 = .ok (d1, g1))
    (h2 : SourceCppDynlib.make path2 plat2 parse2 tmp2 r2 fs2 now2 = .ok (d2, g2))
    (hr : r1 ≠ r2) :
    d1.moduleName ≠ d2.moduleName := by
  rw [make_moduleName path1 plat1 parse1 tmp1 r1 fs1 now1 d1 g1 h1,
    make_moduleName path2 plat2 parse2 tmp2 r2 fs2 now2 d2 g2 h2]
  intro h
  exact hr (nat_repr_injective r1 r2 (str_append_cancel_left _ _ _ h))

/-- Witness for amended C4: draws 7 and 8 give distinct module names. -/
theorem moduleName_distinct_of_distinct_draws_witness :
    ("sourceCpp_7" : String) ≠ "sourceCpp_8" ∧
    c4make1.map (fun r => r.1.moduleName) = .ok "sourceCpp_7" ∧
    (SourceCppDynlib.make "a.cpp" ⟨"/", ".so"⟩ c4parse "T3" 8 c4fs 10).map
      (fun r => r.1.moduleName) = .ok "sourceCpp_8" :=
  ⟨moduleName_distinct_of_distinct_draws "a.cpp" "a.cpp" ⟨"/", ".so"⟩ ⟨"/", ".so"⟩
      c4parse c4parse "T1" "T3" 7 8 c4fs c4fs 10 10 _ _ _ _ rfl rfl (by decide),
    rfl, rfl⟩

/-! ## Claims C5 and C6: lookup, staleness, buildRequired -/

/-- Branch lemma: a cache miss constructs a fresh unit, inserts it under the
file key and reports the build as required. -/
theorem sourceCppContext_miss (file : String) (plat : Platform)
    (parse : String → SourceFileAttributes) (tmp : String) (r now1 : Nat)
    (st : SysState) (d : SourceCppDynlib) (fs2 : FS)
    (hlookup : (st.cache.lookupByFile file).isEmpty = true)
    (hmake : SourceCppDynlib.make file plat parse tmp r st.fs now1 = .ok (d, fs2)) :
    sourceCppContext file "" plat parse tmp r now1 st =
      .ok (mkBuildContext d true, ⟨fs2, st.cache.insertFile file d⟩) := by
  unfold sourceCppContext
  simp [hlookup, hmake, Bind.bind, Except.bind]

/-- Branch lemma: a hit on a dirty unit regenerates the local copy of the
unit (the cache entry is untouched) and reports the build as required. -/
theorem sourceCppContext_dirty_hit (file : String) (plat : Platform)
    (parse : String → SourceFileAttributes) (tmp : String) (r now2 : Nat)
    (st : SysState) (d : SourceCppDynlib)
    (hlookup : st.cache.lookupByFile file = d)
    (hne : d.isEmpty = false)
    (hdirty : d.isSourceDirty st.fs = true) :
    sourceCppContext file "" plat parse tmp r now2 st =
      .ok (mkBuildContext (d.regenerateSource parse st.fs now2).1 true,
        ⟨(d.regenerateSource parse st.fs now2).2, st.cache⟩) := by
  unfold sourceCppContext
  rcases hreg : d.regenerateSource parse st.fs now2 with ⟨d2, fs2⟩
  simp [hlookup, hne, hdirty, hreg]

/-- Branch lemma: a hit on a clean, built unit returns it unchanged with no
build required. -/
theorem sourceCppContext_clean_hit (file : String) (plat : Platform)
    (parse : String → SourceFileAttributes) (tmp : String) (r now2 : Nat)
    (st : SysState) (d : SourceCppDynlib)
    (hlookup : st.cache.lookupByFile file = d)
    (hne : d.isEmpty = false)
    (hclean : d.isSourceDirty st.fs = false)
    (hbuilt : d.isBuilt st.fs = true) :
    sourceCppContext file "" plat parse tmp r now2 st =
      .ok (mkBuildContext d false, st) := by
  unfold sourceCppContext
  simp [hlookup, hne, hclean, hbuilt]

/-- Field values of a successfully constructed unit, and the single write it
performs: the source copied into the build directory with the generated
registration block appended after a newline, stamped with the copy time. -/
theorem make_fields (path : String) (plat : Platform)
    (parse : String → SourceFileAttributes) (tmp : String) (r : Nat)
    (fs : FS) (now : Nat) (d : SourceCppDynlib) (g : FS)
    (h : SourceCppDynlib.make path plat parse tmp r fs now = .ok (d, g)) :
    d.cppSourcePath = path ∧
    d.buildDirectory = tmp ∧
    d.fileSep = plat.fileSep ∧
    d.dynlibExt = plat.dynlibExt ∧
    d.cppSourceFilename = basename path ∧
    d.moduleName = "sourceCpp_" ++ Nat.repr r ∧
    g = fs.write (tmp ++ plat.fileSep ++ basename path)
      ⟨(fs.contentAt path).getD "" ++ "\n" ++
        generateCppModule ("sourceCpp_" ++ Nat.repr r) (parse path).attributes,
        now⟩ := by
  unfold SourceCppDynlib.make at h
  cases hread : fs.read path with
  | none => rw [hread] at h; simp at h
  | some info =>
    rw [hread] at h
    simp only [Except.ok.injEq] at h
    have hd := congrArg Prod.fst h
    have hg := congrArg Prod.snd h
    simp only [Prod.fst] at hd
    simp only [Prod.snd] at hg
    rw [← hd, ← hg]
    exact ⟨rfl, rfl, rfl, rfl, rfl, rfl, rfl⟩

/-- Parser stub for the concrete C5 scenario. -/
def c5parse : String → SourceFileAttributes := fun p => ⟨p, [], [], false, false⟩

/-- Initial state of the concrete C5 scenario: one source file, empty
cache. -/
def c5st0 : SysState := ⟨⟨[("a.cpp", ⟨"x", 10⟩)]⟩, []⟩

/-- First lookup (cache miss: constructs and inserts the unit). -/
def c5call1 : Except Err (BuildContext × SysState) :=
  sourceCppContext "a.cpp" "" ⟨"/", ".so"⟩ c5parse "T1" 7 10 c5st0

/-- State after the first lookup. -/
def c5st1 : SysState :=
  match c5call1 with
  | .ok r => r.2
  | .error _ => c5st0

/-- Second lookup, nothing changed in between (in particular the unit was
never compiled, so no dynlib exists). -/
def c5call2 : Except Err (BuildContext × SysState) :=
  sourceCppContext "a.cpp" "" ⟨"/", ".so"⟩ c5parse "T2" 8 11 c5st1

set_option maxRecDepth 100000 in
/-- Counterexample to C5 as stated: the source file's content and mtime are
unchanged between the two successive lookups and the module name is stable,
yet the second call returns `buildRequired = true`, because the compiled
artifact does not exist at the expected path and `isSourceDirty()` therefore
holds. -/
theorem secondLookup_buildRequired_cex :
    c5st1.fs.read "a.cpp" = some ⟨"x", 10⟩ ∧
    c5call1.map (fun r => r.1.moduleName) = .ok "sourceCpp_7" ∧
    c5call2.map (fun r => r.1.moduleName) = .ok "sourceCpp_7" ∧
    c5call2.map (fun r => r.1.buildRequired) = .ok true :=
  ⟨rfl, rfl, rfl, rfl⟩

/-- C5 (amended): with unchanged source content and mtime, two successive
lookups agree on the module name, and the second returns
`buildRequired = false` provided the compiled artifact was produced at the
returned artifact path between the calls (and the build directory does not
collide with the source path). -/
theorem getOrCreate_second_call_clean_after_build (file content : String)
    (t : Nat) (plat : Platform) (parse : String → SourceFileAttributes)
    (tmp : String) (r now1 : Nat) (fs : FS)
    (bin : String) (nowB : Nat) (tmp2 : String) (r2 now2 : Nat)
    (hfile : file ≠ "")
    (hread : fs.read file = some ⟨content, t⟩)
    (hmt : t ≤ now1)
    (hgen_ne : tmp ++ plat.fileSep ++ basename file ≠ file)
    (hdyn_ne_src : tmp ++ plat.fileSep ++ ("sourceCpp_" ++ Nat.repr r ++ plat.dynlibExt) ≠ file)
    (hdyn_ne_gen : tmp ++ plat.fileSep ++ ("sourceCpp_" ++ Nat.repr r ++ plat.dynlibExt) ≠
      tmp ++ plat.fileSep ++ basename file) :
    ∃ ctx1 st1 ctx2 st2,
      sourceCppContext file "" plat parse tmp r now1 ⟨fs, []⟩ = .ok (ctx1, st1) ∧
      sourceCppContext file "" plat parse tmp2 r2 now2
        ⟨st1.fs.write ctx1.dynlibPath ⟨bin, nowB⟩, st1.cache⟩ = .ok (ctx2, st2) ∧
      ctx1.buildRequired = true ∧
      ctx2.moduleName = ctx1.moduleName ∧
      ctx2.buildRequired = false := by
  cases hmake : SourceCppDynlib.make file plat parse tmp r fs now1 with
  | error e =>
    exfalso
    unfold SourceCppDynlib.make at hmake
    rw [hread] at hmake
    simp at hmake
  | ok pair =>
  rcases pair with ⟨dd, ff⟩
  obtain ⟨hsrc, hdir, hsep, hext, hbase, hmod, hff⟩ :=
    make_fields file plat parse tmp r fs now1 dd ff hmake
  have hcall1 := sourceCppContext_miss file plat parse tmp r now1 ⟨fs, []⟩ dd ff
    rfl hmake
  have hdynPath : dd.dynlibPath =
      tmp ++ plat.fileSep ++ ("sourceCpp_" ++ Nat.repr r ++ plat.dynlibExt) := by
    unfold SourceCppDynlib.dynlibPath SourceCppDynlib.dynlibFilename
    rw [hdir, hsep, hext, hmod]
  have hgenPath : dd.generatedCppSourcePath = tmp ++ plat.fileSep ++ basename file := by
    unfold SourceCppDynlib.generatedCppSourcePath
    rw [hdir, hsep, hbase]
  -- the filesystem seen by the second call
  have hfsX : ∀ q : String, q ≠ dd.dynlibPath →
      (ff.write dd.dynlibPath ⟨bin, nowB⟩).read q = ff.read q :=
    fun q hq => FS.read_write_ne ff dd.dynlibPath q _ hq
  have hreadSrc : (ff.write dd.dynlibPath ⟨bin, nowB⟩).read file = some ⟨content, t⟩ := by
    rw [hfsX file (by rw [hdynPath]; exact Ne.symm hdyn_ne_src), hff,
      FS.read_write_ne _ _ _ _ (Ne.symm hgen_ne), hread]
  have hreadGen : (ff.write dd.dynlibPath ⟨bin, nowB⟩).read
      (tmp ++ plat.fileSep ++ basename file) =
      some ⟨(fs.contentAt file).getD "" ++ "\n" ++
        generateCppModule ("sourceCpp_" ++ Nat.repr r) (parse file).attributes,
        now1⟩ := by
    rw [hfsX _ (by rw [hdynPath]; exact Ne.symm hdyn_ne_gen), hff,
      FS.read_write_self]
  have hclean : dd.isSourceDirty (ff.write dd.dynlibPath ⟨bin, nowB⟩) = false := by
    unfold SourceCppDynlib.isSourceDirty
    rw [hsrc]
    have h1 : (ff.write dd.dynlibPath ⟨bin, nowB⟩).mtimeOf file = t := by
      simp [FS.mtimeOf, hreadSrc]
    have h2 : (ff.write dd.dynlibPath ⟨bin, nowB⟩).mtimeOf
        dd.generatedCppSourcePath = now1 := by
      rw [hgenPath]
      simp [FS.mtimeOf, hreadGen]
    have h3 : (ff.write dd.dynlibPath ⟨bin, nowB⟩).existsFile dd.dynlibPath = true := by
      simp [FS.existsFile, FS.read_write_self]
    rw [h1, h2, h3]
    simp only [Bool.not_true, Bool.or_false, decide_eq_false_iff_not]
    omega
  have hbuilt : dd.isBuilt (ff.write dd.dynlibPath ⟨bin, nowB⟩) = true := by
    unfold SourceCppDynlib.isBuilt
    simp [FS.existsFile, FS.read_write_self]
  have hne : dd.isEmpty = false := by
    unfold SourceCppDynlib.isEmpty
    rw [hsrc]
    simp [hfile]
  have hlookup : (Cache.insertFile ([] : Cache) file dd).lookupByFile file = dd := by
    simp [Cache.insertFile, Cache.lookupByFile, List.find?]
  have hcall2 := sourceCppContext_clean_hit file plat parse tmp2 r2 now2
    ⟨ff.write dd.dynlibPath ⟨bin, nowB⟩, Cache.insertFile [] file dd⟩ dd
    hlookup hne hclean hbuilt
  exact ⟨mkBuildContext dd true, ⟨ff, Cache.insertFile [] file dd⟩,
    mkBuildContext dd false,
    ⟨ff.write dd.dynlibPath ⟨bin, nowB⟩, Cache.insertFile [] file dd⟩,
    hcall1, hcall2, rfl, rfl, rfl⟩

set_option maxRecDepth 100000 in
/-- Witness for amended C5 at the concrete scenario (dynlib built between
the calls). -/
theorem getOrCreate_second_call_clean_after_build_witness :
    ∃ ctx1 st1 ctx2 st2,
      sourceCppContext "a.cpp" "" ⟨"/", ".so"⟩ c5parse "T1" 7 10
        ⟨⟨[("a.cpp", ⟨"x", 10⟩)]⟩, []⟩ = .ok (ctx1, st1) ∧
      sourceCppContext "a.cpp" "" ⟨"/", ".so"⟩ c5parse "T2" 8 12
        ⟨st1.fs.write ctx1.dynlibPath ⟨"b", 11⟩, st1.cache⟩ = .ok (ctx2, st2) ∧
      ctx1.buildRequired = true ∧
      ctx2.moduleName = ctx1.moduleName ∧
      ctx2.buildRequired = false :=
  getOrCreate_second_call_clean_after_build "a.cpp" "x" 10 ⟨"/", ".so"⟩ c5parse
    "T1" 7 10 ⟨[("a.cpp", ⟨"x", 10⟩)]⟩ "b" 11 "T2" 8 12
    (by decide) rfl (by decide) (by decide) (by decide) (by decide)

/-! ## Claim C6 -/

/-- C6: `isSourceDirty()` holds exactly when the source's mtime is strictly
newer than the generated copy's mtime or the compiled artifact is missing;
consequently, touching a previously-built cached source (re-stamping it with
an mtime newer than its generated copy) makes the next lookup's
`isSourceDirty()` true and the returned `buildRequired` true. -/
theorem isSourceDirty_iff_and_touch_dirty :
    (∀ (d : SourceCppDynlib) (fs : FS),
      d.isSourceDirty fs = true ↔
        (fs.mtimeOf d.cppSourcePath > fs.mtimeOf d.generatedCppSourcePath ∨
         fs.existsFile d.dynlibPath = false)) ∧
    (∀ (file : String) (plat : Platform) (parse : String → SourceFileAttributes)
        (tmp : String) (r now2 : Nat) (st : SysState) (d : SourceCppDynlib)
        (c : String) (t2 : Nat),
      st.cache.lookupByFile file = d →
      d.isEmpty = false →
      t2 > (st.fs.write d.cppSourcePath ⟨c, t2⟩).mtimeOf d.generatedCppSourcePath →
      d.isSourceDirty (st.fs.write d.cppSourcePath ⟨c, t2⟩) = true ∧
      ∃ ctx st2,
        sourceCppContext file "" plat parse tmp r now2
          ⟨st.fs.write d.cppSourcePath ⟨c, t2⟩, st.cache⟩ = .ok (ctx, st2) ∧
        ctx.buildRequired = true) := by
  constructor
  · intro d fs
    unfold SourceCppDynlib.isSourceDirty
    simp [Bool.or_eq_true, decide_eq_true_eq, Bool.not_eq_true']
  · intro file plat parse tmp r now2 st d c t2 hlookup hne hmt
    have hdirty : d.isSourceDirty (st.fs.write d.cppSourcePath ⟨c, t2⟩) = true := by
      unfold SourceCppDynlib.isSourceDirty
      have h1 : (st.fs.write d.cppSourcePath ⟨c, t2⟩).mtimeOf d.cppSourcePath = t2 := by
        simp [FS.mtimeOf, FS.read_write_self]
      rw [h1]
      simp only [Bool.or_eq_true, decide_eq_true_eq]
      exact Or.inl hmt
    have hcall := sourceCppContext_dirty_hit file plat parse tmp r now2
      ⟨st.fs.write d.cppSourcePath ⟨c, t2⟩, st.cache⟩ d hlookup hne hdirty
    exact ⟨hdirty,
      mkBuildContext (d.regenerateSource parse
        (st.fs.write d.cppSourcePath ⟨c, t2⟩) now2).1 true,
      ⟨(d.regenerateSource parse (st.fs.write d.cppSourcePath ⟨c, t2⟩) now2).2,
        st.cache⟩,
      hcall, rfl⟩

/-- Previously-built cached unit for the concrete C6 scenario. -/
def c6d : SourceCppDynlib :=
  ⟨"a.cpp", 10, "", "a.cpp", "sourceCpp_7", "T1", "/", ".so", [], []⟩

/-- Concrete C6 state: source, generated copy and compiled dynlib on disk,
the unit cached under its file key. -/
def c6st : SysState :=
  ⟨⟨[("a.cpp", ⟨"x", 10⟩), ("T1/a.cpp", ⟨"y", 10⟩), ("T1/sourceCpp_7.so", ⟨"b", 11⟩)]⟩,
   [⟨"a.cpp", "", c6d⟩]⟩

set_option maxRecDepth 100000 in
/-- Witness for C6: touching the concrete built source re-dirties it and the
next lookup demands a build. -/
theorem isSourceDirty_iff_and_touch_dirty_witness :
    c6d.isSourceDirty (c6st.fs.write c6d.cppSourcePath ⟨"x", 12⟩) = true ∧
    ∃ ctx st2,
      sourceCppContext "a.cpp" "" ⟨"/", ".so"⟩ c5parse "T3" 9 13
        ⟨c6st.fs.write c6d.cppSourcePath ⟨"x", 12⟩, c6st.cache⟩ = .ok (ctx, st2) ∧
      ctx.buildRequired = true :=
  isSourceDirty_iff_and_touch_dirty.2 "a.cpp" ⟨"/", ".so"⟩ c5parse "T3" 9 13
    c6st c6d "x" 12 rfl rfl (by decide)
